import Mathlib

/-!
Verification of the iamtestapp HTTP gateway (`main.go`).

The development shallowly embeds the parts of the program the specified
properties are about:

* `HTTPSink` models the real `http.ResponseWriter` supplied by `net/http`:
  the first `WriteHeader` call fixes the status, later calls are superfluous
  and ignored, and a body `Write` before any `WriteHeader` implicitly
  finalizes status 200 at the transport layer.
* `ResponseWriterW` models the program's `responseWriter` wrapper
  (`wrapResponseWriter`, `Status`, `WriteHeader`); it does not override
  `Write`, exactly as in the source.
* `Handler`/`HandlerAction` model a wrapped handler as the sequence of
  writer operations it performs, plus whether it panics afterwards.
* `loggingMiddleware` models the middleware: it builds an `HTTPRequestInfo`
  from the request, runs the handler against the wrapped writer, and either
  emits the serialized record (normal return) or recovers from the panic,
  forces a 500 on the outer writer and emits a minimal error line.
* `errorHandler`, `JSONError` and `encodeJSONError` model the error
  envelope mapper together with `encoding/json`'s string escaping
  (`jsonEscape`) and its inverse (`jsonUnescape`).
* `identityHandler` models the `/identity` route body given the outcomes of
  `session.NewSession` and `sts.GetCallerIdentity`.
* `Orchestrator.step` models the shutdown goroutine as a lifecycle state
  machine driven by bind/interrupt/drain events.
-/

/-- A status code written to a writer (Go `int`; only non-negative HTTP
codes occur). -/
abbrev StatusCode := Nat

/-- The real response sink behind the wrapper, with `net/http` semantics.
`writeHeaderCalls` records every `WriteHeader` invocation the sink receives
from the outside (the wrapper or the middleware); the implicit 200 that the
transport finalizes on a first body write is internal and not such a call. -/
structure HTTPSink where
  wroteHeader : Bool
  sentStatus : StatusCode
  body : String
  writeHeaderCalls : List StatusCode
  deriving Repr, DecidableEq

/-- A fresh sink, before anything has been written for the request. -/
def HTTPSink.init : HTTPSink :=
  { wroteHeader := false, sentStatus := 0, body := "", writeHeaderCalls := [] }

/-- `net/http` `WriteHeader`: the first call fixes the status; later calls
are superfluous and do not change it (they are still received, hence
recorded in the trace). -/
def HTTPSink.writeHeader (s : HTTPSink) (code : StatusCode) : HTTPSink :=
  { s with
    writeHeaderCalls := s.writeHeaderCalls ++ [code]
    wroteHeader := true
    sentStatus := if s.wroteHeader then s.sentStatus else code }

/-- `net/http` `Write`: a body write before any `WriteHeader` implicitly
finalizes the default success status 200 at the transport layer. -/
def HTTPSink.write (s : HTTPSink) (b : String) : HTTPSink :=
  if s.wroteHeader then { s with body := s.body ++ b }
  else { s with wroteHeader := true, sentStatus := 200, body := s.body ++ b }

/-- The status an HTTP client observes on the finished response: the sent
status, or 200 when the response completed without any explicit status. -/
def HTTPSink.effectiveStatus (s : HTTPSink) : StatusCode :=
  if s.wroteHeader then s.sentStatus else 200

/-- The program's `responseWriter` struct: the wrapped
`http.ResponseWriter` plus the captured `status` (Go zero value 0) and the
`wroteHeader` flag. `Write` is not overridden, so body writes go straight
through to the underlying sink. -/
structure ResponseWriterW where
  underlying : HTTPSink
  status : StatusCode
  wroteHeader : Bool
  deriving Repr, DecidableEq

/-- `wrapResponseWriter(w)`: fields `status` and `wroteHeader` start at
their Go zero values. -/
def wrapResponseWriter (w : HTTPSink) : ResponseWriterW :=
  { underlying := w, status := 0, wroteHeader := false }

/-- `(rw *responseWriter) Status()`. -/
def ResponseWriterW.Status (rw : ResponseWriterW) : StatusCode :=
  rw.status

/-- `(rw *responseWriter) WriteHeader(code)`: if a header was already
written through the wrapper, return at once; otherwise capture the code,
forward it to the underlying writer, and set the flag. -/
def ResponseWriterW.WriteHeader (rw : ResponseWriterW) (code : StatusCode) :
    ResponseWriterW :=
  if rw.wroteHeader then rw
  else
    { underlying := rw.underlying.writeHeader code
      status := code
      wroteHeader := true }

/-- The promoted `Write` of the embedded `http.ResponseWriter`: the wrapper
has no `Write` method of its own, so the call reaches the sink unchanged
and the wrapper's `status`/`wroteHeader` fields are untouched. -/
def ResponseWriterW.write (rw : ResponseWriterW) (b : String) :
    ResponseWriterW :=
  { rw with underlying := rw.underlying.write b }

/-- One operation a handler performs on the response writer it is given. -/
inductive HandlerAction where
  | writeHeader (code : StatusCode)
  | write (b : String)
  deriving Repr, DecidableEq

/-- Whether the action is a body write (as opposed to setting a status). -/
def HandlerAction.isWrite : HandlerAction → Bool
  | .writeHeader _ => false
  | .write _ => true

/-- A wrapped handler, abstracted as the writer operations it performs and
whether it then panics instead of returning normally. -/
structure Handler where
  actions : List HandlerAction
  panics : Bool
  deriving Repr, DecidableEq

/-- Apply one handler action to the wrapped writer. -/
def applyAction (rw : ResponseWriterW) (a : HandlerAction) : ResponseWriterW :=
  match a with
  | .writeHeader code => rw.WriteHeader code
  | .write b => rw.write b

/-- Run a handler's operations on the wrapped writer, in order. -/
def runActions (acts : List HandlerAction) (rw : ResponseWriterW) :
    ResponseWriterW :=
  acts.foldl applyAction rw

/-- The request metadata the middleware reads (`r.Method`, `r.URL.String()`,
`r.Referer()`, `r.UserAgent()`). -/
structure Request where
  method : String
  url : String
  referer : String
  userAgent : String
  deriving Repr, DecidableEq

/-- The `HTTPRequestInfo` struct of the source, the per-request log record.
`duration` holds elapsed seconds as a real number standing in for Go's
`float64`. -/
structure HTTPRequestInfo where
  method : String
  url : String
  referer : String
  userAgent : String
  status : StatusCode
  duration : Rat
  deriving Repr, DecidableEq

/-- A line written to the process log stream by the middleware: either the
serialized `HTTPRequestInfo` record (`log.Print(string(b))`) or the minimal
error line the recovery path prints. -/
inductive LogEntry where
  | requestRecord (info : HTTPRequestInfo)
  | minimalError
  deriving Repr, DecidableEq

/-- Whether a log entry is a serialized request log record. -/
def LogEntry.isRequestRecord : LogEntry → Bool
  | .requestRecord _ => true
  | .minimalError => false

/-- `loggingMiddleware` from the source, for one request: build the
`HTTPRequestInfo` from the request metadata (its `Status` field keeps the
Go zero value 0 — the source never assigns it), run the handler against
`wrapResponseWriter` of the real sink, and

* if the handler panics, the deferred `recover` fires: it calls
  `WriteHeader(500)` on the outer writer `rw` (the sink itself) and prints
  the minimal error line; the record is never serialized;
* on normal return, set `info.Duration` to the elapsed seconds, marshal the
  record and print it as one log line.

`elapsed` is the measured wall-clock duration in seconds. The result is
the final sink state and the log entries emitted for this request. -/
def loggingMiddleware (h : Handler) (r : Request) (elapsed : Rat)
    (w : HTTPSink) : HTTPSink × List LogEntry :=
  let info : HTTPRequestInfo :=
    { method := r.method, url := r.url, referer := r.referer
      userAgent := r.userAgent, status := 0, duration := 0 }
  let wrapped := runActions h.actions (wrapResponseWriter w)
  if h.panics then
    (wrapped.underlying.writeHeader 500, [LogEntry.minimalError])
  else
    let info := { info with duration := elapsed }
    (wrapped.underlying, [LogEntry.requestRecord info])

/-! ## JSON string escaping (`encoding/json`, default HTML escaping) -/

/-- Lowercase hex digit, as `encoding/json` prints in a `\u` escape. -/
def hexDigitChar (n : Nat) : Char :=
  if n < 10 then Char.ofNat (48 + n) else Char.ofNat (87 + n)

/-- Numeric value of a hex digit character (0 on a non-digit). -/
def hexVal (c : Char) : Nat :=
  if 48 ≤ c.toNat ∧ c.toNat ≤ 57 then c.toNat - 48
  else if 97 ≤ c.toNat ∧ c.toNat ≤ 102 then c.toNat - 87
  else if 65 ≤ c.toNat ∧ c.toNat ≤ 70 then c.toNat - 55
  else 0

/-- How `encoding/json` (with its default HTML escaping) escapes one
character inside a JSON string: quote and backslash get a backslash
escape, newline/carriage-return/tab their short forms, the remaining
control characters along with the HTML-sensitive characters and the two
line separators a 4-digit `\u` escape, and everything else stands for
itself. -/
def escapeChar (c : Char) : List Char :=
  if c = '"' then ['\\', '"']
  else if c = '\\' then ['\\', '\\']
  else if c = '\n' then ['\\', 'n']
  else if c = '\r' then ['\\', 'r']
  else if c = '\t' then ['\\', 't']
  else if c.toNat < 32 ∨ c = '<' ∨ c = '>' ∨ c = '&'
      ∨ c.toNat = 8232 ∨ c.toNat = 8233 then
    ['\\', 'u', hexDigitChar (c.toNat / 4096 % 16), hexDigitChar (c.toNat / 256 % 16),
     hexDigitChar (c.toNat / 16 % 16), hexDigitChar (c.toNat % 16)]
  else [c]

/-- Escape a whole string for embedding between JSON quotes. -/
def jsonEscape (s : String) : String :=
  ⟨s.data.flatMap escapeChar⟩

/-- Decode the escape sequences produced by `escapeChar`: a JSON reader's
view of the string content. -/
def unescapeChars : List Char → List Char
  | [] => []
  | c :: rest =>
    if c = '\\' then
      match rest with
      | 'u' :: h3 :: h2 :: h1 :: h0 :: rest2 =>
          Char.ofNat (hexVal h3 * 4096 + hexVal h2 * 256 + hexVal h1 * 16 + hexVal h0)
            :: unescapeChars rest2
      | 'n' :: rest2 => '\n' :: unescapeChars rest2
      | 'r' :: rest2 => '\r' :: unescapeChars rest2
      | 't' :: rest2 => '\t' :: unescapeChars rest2
      | e :: rest2 => e :: unescapeChars rest2
      | [] => []
    else c :: unescapeChars rest

/-- Decode a JSON-escaped string back to its content. -/
def jsonUnescape (s : String) : String :=
  ⟨unescapeChars s.data⟩

/-! ## Error envelope mapper -/

/-- The `JSONError` struct of the source: the error envelope, serialized
with the single JSON field tag named error. -/
structure JSONError where
  error : String
  deriving Repr, DecidableEq

/-- An error value reaching `errorHandler`: either one implementing the
`awserr.Error` interface (carrying a failure code) or any other `error`.
In both cases `message` is what the error's `Error()` method returns. -/
inductive GoError where
  | awsError (code : String) (message : String)
  | plainError (message : String)
  deriving Repr, DecidableEq

/-- The `Error()` method: the error's descriptive message. -/
def GoError.Error : GoError → String
  | .awsError _ m => m
  | .plainError m => m

/-- `errorHandler` from the source: a type switch on `awserr.Error` whose
inner switch on the code has only a default arm using `aerr.Error()`, and
a fallback using `err.Error()` — both fill the envelope with the error's
full descriptive message. -/
def errorHandler (err : GoError) : JSONError :=
  match err with
  | .awsError _ _ => { error := err.Error }
  | .plainError _ => { error := err.Error }

/-- What `json.NewEncoder(w).Encode(je)` writes for a `JSONError`: the
object with the single `error` field holding the escaped message, followed
by the newline `Encode` appends. -/
def encodeJSONError (je : JSONError) : String :=
  "\x7b\"error\":\"" ++ jsonEscape je.error ++ "\"\x7d\n"

/-- The bytes `errorHandler` writes to the response for a given error. -/
def errorHandlerOutput (err : GoError) : String :=
  encodeJSONError (errorHandler err)

/-! ## The `/identity` route handler -/

/-- The fields of `sts.GetCallerIdentityOutput`. -/
structure GetCallerIdentityOutput where
  account : String
  arn : String
  userId : String
  deriving Repr, DecidableEq

/-- What `json.NewEncoder(rw).Encode(result)` writes on the success path. -/
def encodeGetCallerIdentityOutput (o : GetCallerIdentityOutput) : String :=
  "\x7b\"Account\":\"" ++ jsonEscape o.account ++ "\",\"Arn\":\""
    ++ jsonEscape o.arn ++ "\",\"UserId\":\"" ++ jsonEscape o.userId ++ "\"\x7d\n"

/-- The `/identity` handler body, given the outcome of `session.NewSession`
and of `svc.GetCallerIdentity`: each failure is delegated to
`errorHandler` (written to the response body, no status call); success
encodes the result as JSON. -/
def identityHandler (sess : Except GoError Unit)
    (call : Except GoError GetCallerIdentityOutput) : List HandlerAction :=
  match sess with
  | .error e => [HandlerAction.write (errorHandlerOutput e)]
  | .ok _ =>
    match call with
    | .error e => [HandlerAction.write (errorHandlerOutput e)]
    | .ok result => [HandlerAction.write (encodeGetCallerIdentityOutput result)]

/-! ## Serialization of the request log record -/

/-- A JSON field value as `encoding/json` renders the record's fields. -/
inductive JsonFieldValue where
  | str (s : String)
  | int (n : Nat)
  | float (q : Rat)
  deriving Repr, DecidableEq

/-- `json.Marshal` of an `HTTPRequestInfo`: one JSON object whose fields,
in struct order, carry the struct's JSON tags as keys. -/
def jsonMarshalHTTPRequestInfo (i : HTTPRequestInfo) :
    List (String × JsonFieldValue) :=
  [("method", JsonFieldValue.str i.method),
   ("url", JsonFieldValue.str i.url),
   ("referer", JsonFieldValue.str i.referer),
   ("userAgent", JsonFieldValue.str i.userAgent),
   ("status", JsonFieldValue.int i.status),
   ("duration", JsonFieldValue.float i.duration)]

/-! ## Lifecycle orchestrator -/

/-- The server lifecycle states of the spec's state machine. -/
inductive LifecycleState where
  | Starting
  | Serving
  | ShuttingDown
  | Stopped
  deriving Repr, DecidableEq

/-- Events driving the lifecycle: the listener binding, one OS interrupt
delivered to the `sigint` channel, and the completion of
`srv.Shutdown`/`close(idleConnsClosed)`. -/
inductive LifecycleEvent where
  | bind
  | interrupt
  | drained
  deriving Repr, DecidableEq

/-- The orchestrator: the current lifecycle state plus how many times
`srv.Shutdown` has been invoked. -/
structure Orchestrator where
  state : LifecycleState
  shutdownCalls : Nat
  deriving Repr, DecidableEq

/-- One step of the lifecycle, from `main`: the shutdown goroutine blocks
on a single receive from the `sigint` channel, so only the first interrupt
while serving invokes `srv.Shutdown`; interrupts delivered during or after
shutdown find no receiver and have no effect; draining completes the
transition to `Stopped`. -/
def Orchestrator.step (o : Orchestrator) (e : LifecycleEvent) : Orchestrator :=
  match o.state, e with
  | .Starting, .bind => { o with state := .Serving }
  | .Serving, .interrupt =>
      { state := .ShuttingDown, shutdownCalls := o.shutdownCalls + 1 }
  | .ShuttingDown, .drained => { o with state := .Stopped }
  | _, _ => o

/-- Run the lifecycle from process start over a sequence of events. -/
def Orchestrator.run (events : List LifecycleEvent) : Orchestrator :=
  events.foldl Orchestrator.step { state := .Starting, shutdownCalls := 0 }

/-! ## Round trip of the JSON string escaping -/

theorem char_ofNat_toNat (c : Char) : Char.ofNat c.toNat = c := by
  have hv : c.toNat.isValidChar := by
    simpa [Char.toNat, UInt32.isValidChar] using c.valid
  simp only [Char.ofNat, hv, dif_pos]
  show Char.ofNatAux c.toNat hv = c
  unfold Char.ofNatAux
  apply Char.ext
  apply UInt32.ext
  simp [Char.toNat, UInt32.toNat]

theorem hexVal_hexDigitChar (n : Nat) (h : n < 16) :
    hexVal (hexDigitChar n) = n := by
  interval_cases n <;> decide

theorem unescape_escape (c : Char) (rest : List Char) :
    unescapeChars (escapeChar c ++ rest) = c :: unescapeChars rest := by
  by_cases h1 : c = '"'
  · subst h1; simp [escapeChar, unescapeChars]
  by_cases h2 : c = '\\'
  · subst h2; simp [escapeChar, unescapeChars]
  by_cases h3 : c = '\n'
  · subst h3; simp [escapeChar, unescapeChars]
  by_cases h4 : c = '\r'
  · subst h4; simp [escapeChar, unescapeChars]
  by_cases h5 : c = '\t'
  · subst h5; simp [escapeChar, unescapeChars]
  by_cases h6 : c.toNat < 32 ∨ c = '<' ∨ c = '>' ∨ c = '&'
      ∨ c.toNat = 8232 ∨ c.toNat = 8233
  · have hlt : c.toNat < 65536 := by
      rcases h6 with h | h | h | h | h | h
      · omega
      · subst h; decide
      · subst h; decide
      · subst h; decide
      · omega
      · omega
    simp only [escapeChar, h1, h2, h3, h4, h5, h6, if_false, if_true,
      if_neg, if_pos, List.cons_append, List.nil_append]
    simp only [unescapeChars]
    rw [hexVal_hexDigitChar _ (Nat.mod_lt _ (by norm_num)),
      hexVal_hexDigitChar _ (Nat.mod_lt _ (by norm_num)),
      hexVal_hexDigitChar _ (Nat.mod_lt _ (by norm_num)),
      hexVal_hexDigitChar _ (Nat.mod_lt _ (by norm_num))]
    have harith : c.toNat / 4096 % 16 * 4096 + c.toNat / 256 % 16 * 256
        + c.toNat / 16 % 16 * 16 + c.toNat % 16 = c.toNat := by omega
    rw [harith, char_ofNat_toNat]
    simp
  · simp only [escapeChar, h1, h2, h3, h4, h5, h6, if_false,
      List.cons_append, List.nil_append]
    rw [unescapeChars.eq_def]
    simp [h2]

theorem jsonUnescape_jsonEscape (s : String) :
    jsonUnescape (jsonEscape s) = s := by
  cases s with
  | mk data =>
    simp only [jsonEscape, jsonUnescape]
    congr 1
    induction data with
    | nil => rfl
    | cons c cs ih => simp [unescape_escape, ih]

/-! ## Helper lemmas on the response wrapper -/

theorem writeHeader_of_wroteHeader (rw : ResponseWriterW)
    (h : rw.wroteHeader = true) (code : StatusCode) :
    rw.WriteHeader code = rw := by
  simp [ResponseWriterW.WriteHeader, h]

theorem foldl_writeHeader_of_wroteHeader (codes : List StatusCode)
    (rw : ResponseWriterW) (h : rw.wroteHeader = true) :
    codes.foldl ResponseWriterW.WriteHeader rw = rw := by
  induction codes with
  | nil => rfl
  | cons a rest ih =>
    rw [List.foldl_cons, writeHeader_of_wroteHeader rw h a, ih]

/-! ## Claim theorems -/

/-- C1 (code behavior at the failing input): the middleware never copies the
wrapper's captured status into the log record — for a handler that writes
status 200 and returns normally, the emitted record carries status 0 even
though the wrapper's `Status()` is 200. -/
theorem log_record_status_not_populated :
    (loggingMiddleware { actions := [HandlerAction.writeHeader 200], panics := false }
        { method := "GET", url := "/", referer := "", userAgent := "" }
        0 HTTPSink.init).2
      = [LogEntry.requestRecord
          { method := "GET", url := "/", referer := "", userAgent := ""
            status := 0, duration := 0 }]
    ∧ (runActions [HandlerAction.writeHeader 200]
        (wrapResponseWriter HTTPSink.init)).Status = 200 := by
  exact ⟨rfl, rfl⟩

/-- C2 counterexample: for a panicking handler the middleware emits no
`RequestLogRecord` at all (only the minimal error line), so it is false
that exactly one record is emitted for every request including panics. -/
theorem panic_emits_no_request_record :
    ¬ ((loggingMiddleware { actions := [], panics := true }
        { method := "GET", url := "/identity", referer := "", userAgent := "" }
        0 HTTPSink.init).2.countP LogEntry.isRequestRecord = 1) := by
  decide

/-- C2 (amended): every request that reaches the middleware emits exactly
one log line — a `RequestLogRecord` when the wrapped handler returns
normally, and the minimal error line (which is not a `RequestLogRecord`)
when it panics; no request is dropped from the log stream. -/
theorem one_log_entry_per_request (h : Handler) (r : Request) (t : Rat)
    (w : HTTPSink) :
    (loggingMiddleware h r t w).2.length = 1
    ∧ (loggingMiddleware h r t w).2.countP LogEntry.isRequestRecord
        = (if h.panics then 0 else 1) := by
  unfold loggingMiddleware
  by_cases hp : h.panics <;>
    simp [hp, LogEntry.isRequestRecord]

/-- C3: `setStatus` (the wrapper's `WriteHeader`) is idempotent — on a
freshly wrapped writer, after setting status `a`, a second call with any
`b` and any further calls are all ignored, and `Status()` keeps
returning `a`. -/
theorem setStatus_idempotent (w : HTTPSink) (a b : StatusCode)
    (rest : List StatusCode) :
    (rest.foldl ResponseWriterW.WriteHeader
        (((wrapResponseWriter w).WriteHeader a).WriteHeader b)).Status = a := by
  have h1 : ((wrapResponseWriter w).WriteHeader a).wroteHeader = true := by
    simp [wrapResponseWriter, ResponseWriterW.WriteHeader]
  rw [writeHeader_of_wroteHeader _ h1 b, foldl_writeHeader_of_wroteHeader _ _ h1]
  simp [wrapResponseWriter, ResponseWriterW.WriteHeader, ResponseWriterW.Status]

/-- C4: when the wrapped handler panics, the middleware recovers (the
request completes normally from the server's point of view): it emits the
minimal error line, and if the handler had not already caused a status to
be sent, the recovery path's `WriteHeader(500)` makes the observed final
status 500; in particular a handler that panics after writing nothing at
all yields a 500 response. -/
theorem panic_recovery_forces_500 (h : Handler) (r : Request) (t : Rat)
    (w : HTTPSink) (hp : h.panics = true)
    (hns : (runActions h.actions (wrapResponseWriter w)).underlying.wroteHeader
      = false) :
    (loggingMiddleware h r t w).1.sentStatus = 500
    ∧ (loggingMiddleware h r t w).1.effectiveStatus = 500
    ∧ (loggingMiddleware h r t w).1.wroteHeader = true
    ∧ (loggingMiddleware h r t w).2 = [LogEntry.minimalError] := by
  unfold loggingMiddleware
  simp [hp, HTTPSink.writeHeader, HTTPSink.effectiveStatus, hns]

/-- C4 witness: a handler that panics after writing no response, on a fresh
sink, yields observed status 500 and the minimal error line. -/
theorem panic_recovery_forces_500_witness :
    (loggingMiddleware { actions := [], panics := true }
        { method := "GET", url := "/", referer := "", userAgent := "" }
        0 HTTPSink.init).1.sentStatus = 500
    ∧ (loggingMiddleware { actions := [], panics := true }
        { method := "GET", url := "/", referer := "", userAgent := "" }
        0 HTTPSink.init).1.effectiveStatus = 500
    ∧ (loggingMiddleware { actions := [], panics := true }
        { method := "GET", url := "/", referer := "", userAgent := "" }
        0 HTTPSink.init).1.wroteHeader = true
    ∧ (loggingMiddleware { actions := [], panics := true }
        { method := "GET", url := "/", referer := "", userAgent := "" }
        0 HTTPSink.init).2 = [LogEntry.minimalError] :=
  panic_recovery_forces_500 { actions := [], panics := true }
    { method := "GET", url := "/", referer := "", userAgent := "" }
    0 HTTPSink.init rfl rfl

/-- C5 counterexample: the mapper copies the message without any
non-emptiness guarantee — for an error whose message is empty the envelope
string is empty, so the output is not of the form with a non-empty
string. -/
theorem error_envelope_empty_message :
    (errorHandler (GoError.plainError "")).error = ""
    ∧ errorHandlerOutput (GoError.plainError "") = "\x7b\"error\":\"\"\x7d\n" := by
  exact ⟨rfl, rfl⟩

/-- C5 (amended): for every error value, the bytes written are valid JSON
of the form with one `error` field whose string is the error's descriptive
message verbatim (JSON-escaped on the wire, decoding back to the exact
message); the string is empty exactly when the message is empty. -/
theorem error_envelope_shape (err : GoError) :
    errorHandlerOutput err
      = "\x7b\"error\":\"" ++ jsonEscape err.Error ++ "\"\x7d\n"
    ∧ jsonUnescape (jsonEscape err.Error) = err.Error
    ∧ (errorHandler err).error = err.Error := by
  refine ⟨?_, jsonUnescape_jsonEscape _, ?_⟩
  · cases err <;> rfl
  · cases err <;> rfl

/-- C6: the error envelope mapper only writes body bytes — the `/identity`
handler's interactions with the writer are body writes only, never a
status call — so when the external client fails with message access
denied on a fresh response, the sink receives no `WriteHeader` call, the
observed status is the transport default 200, and the body is the error
envelope for that message (one line, as `Encode` writes it). -/
theorem identity_failure_defaults_200 (e : GoError) (r : Request) (t : Rat)
    (hmsg : e.Error = "access denied") :
    (∀ (sess : Except GoError Unit)
        (call : Except GoError GetCallerIdentityOutput),
        (identityHandler sess call).all HandlerAction.isWrite = true)
    ∧ (loggingMiddleware
          { actions := identityHandler (Except.ok ()) (Except.error e)
            panics := false } r t HTTPSink.init).1.writeHeaderCalls = []
    ∧ (loggingMiddleware
          { actions := identityHandler (Except.ok ()) (Except.error e)
            panics := false } r t HTTPSink.init).1.effectiveStatus = 200
    ∧ (loggingMiddleware
          { actions := identityHandler (Except.ok ()) (Except.error e)
            panics := false } r t HTTPSink.init).1.body
        = "\x7b\"error\":\"access denied\"\x7d\n" := by
  refine ⟨fun sess call => ?_, ?_, ?_, ?_⟩
  · cases sess with
    | error e' => rfl
    | ok u =>
      cases call with
      | error e' => rfl
      | ok res => rfl
  all_goals
    cases e with
    | awsError code m =>
      simp only [GoError.Error] at hmsg
      subst hmsg
      rfl
    | plainError m =>
      simp only [GoError.Error] at hmsg
      subst hmsg
      rfl

/-- C6 witness: instantiation at a plain error with message access denied,
a concrete request and a fresh sink. -/
theorem identity_failure_defaults_200_witness :
    (∀ (sess : Except GoError Unit)
        (call : Except GoError GetCallerIdentityOutput),
        (identityHandler sess call).all HandlerAction.isWrite = true)
    ∧ (loggingMiddleware
          { actions := identityHandler (Except.ok ())
              (Except.error (GoError.plainError "access denied"))
            panics := false }
          { method := "GET", url := "/identity", referer := "", userAgent := "" }
          0 HTTPSink.init).1.writeHeaderCalls = []
    ∧ (loggingMiddleware
          { actions := identityHandler (Except.ok ())
              (Except.error (GoError.plainError "access denied"))
            panics := false }
          { method := "GET", url := "/identity", referer := "", userAgent := "" }
          0 HTTPSink.init).1.effectiveStatus = 200
    ∧ (loggingMiddleware
          { actions := identityHandler (Except.ok ())
              (Except.error (GoError.plainError "access denied"))
            panics := false }
          { method := "GET", url := "/identity", referer := "", userAgent := "" }
          0 HTTPSink.init).1.body
        = "\x7b\"error\":\"access denied\"\x7d\n" :=
  identity_failure_defaults_200 (GoError.plainError "access denied")
    { method := "GET", url := "/identity", referer := "", userAgent := "" }
    0 rfl

/-- C7 counterexample: the wrapper does not override `Write`, so a body
write without a prior `setStatus` does not capture the implied 200 —
`Status()` stays at the sentinel 0, refuting the claimed lazy capture. -/
theorem status_not_captured_on_write :
    ¬ (((wrapResponseWriter HTTPSink.init).write "WORKING").Status = 200) := by
  decide

/-- C7 (amended): after body writes with no `setStatus`, the wrapper's
`Status()` returns the unset sentinel 0, even though the transport
finalized the implicit 200 on the first write (visible on the underlying
sink). -/
theorem status_sentinel_after_write (w : HTTPSink) (b : String) :
    ((wrapResponseWriter w).write b).Status = 0
    ∧ (w.wroteHeader = false →
        ((wrapResponseWriter w).write b).underlying.effectiveStatus = 200) := by
  constructor
  · rfl
  · intro hw
    simp [wrapResponseWriter, ResponseWriterW.write, HTTPSink.write, hw,
      HTTPSink.effectiveStatus]

/-- C7 witness: instantiation at a fresh sink and the body WORKING. -/
theorem status_sentinel_after_write_witness :
    ((wrapResponseWriter HTTPSink.init).write "WORKING").Status = 0
    ∧ HTTPSink.init.wroteHeader = false
    ∧ ((wrapResponseWriter HTTPSink.init).write
        "WORKING").underlying.effectiveStatus = 200 :=
  ⟨(status_sentinel_after_write HTTPSink.init "WORKING").1, rfl,
    (status_sentinel_after_write HTTPSink.init "WORKING").2 rfl⟩

/-- C8 counterexample: the serialized log record's keys are not the
spec's six names — the last field is tagged duration, not
durationSeconds. -/
theorem log_line_field_names_differ :
    ¬ ((jsonMarshalHTTPRequestInfo
        { method := "GET", url := "/", referer := "", userAgent := ""
          status := 200, duration := 0 }).map Prod.fst
      = ["method", "url", "referer", "userAgent", "status", "durationSeconds"]) := by
  decide

/-- C8 (amended): every emitted request log line is one JSON object whose
fields are exactly method, url, referer, userAgent, status and duration,
in that order. -/
theorem log_line_field_names (i : HTTPRequestInfo) :
    (jsonMarshalHTTPRequestInfo i).map Prod.fst
      = ["method", "url", "referer", "userAgent", "status", "duration"] := rfl

/-- The number of `srv.Shutdown` invocations determined by the lifecycle
state: none before shutdown begins, exactly one from then on. -/
def expectedShutdownCalls : LifecycleState → Nat
  | .Starting => 0
  | .Serving => 0
  | .ShuttingDown => 1
  | .Stopped => 1

theorem step_shutdownCalls (o : Orchestrator) (e : LifecycleEvent)
    (h : o.shutdownCalls = expectedShutdownCalls o.state) :
    (o.step e).shutdownCalls = expectedShutdownCalls (o.step e).state := by
  cases o with
  | mk st n =>
    cases st <;> cases e <;> simp_all [Orchestrator.step, expectedShutdownCalls]

theorem foldl_step_shutdownCalls (events : List LifecycleEvent)
    (o : Orchestrator) (h : o.shutdownCalls = expectedShutdownCalls o.state) :
    (events.foldl Orchestrator.step o).shutdownCalls
      = expectedShutdownCalls (events.foldl Orchestrator.step o).state := by
  induction events generalizing o with
  | nil => exact h
  | cons e rest ih => exact ih _ (step_shutdownCalls o e h)

/-- C9: over any event trace, `srv.Shutdown` has been invoked exactly as
often as the lifecycle state dictates — zero times before the first
interrupt is consumed, exactly once from the moment `ShuttingDown` (or
`Stopped`) is reached; the first interrupt while serving performs the one
transition and invocation, and an interrupt during or after shutdown
changes nothing. -/
theorem shutdown_entered_once (events : List LifecycleEvent) (n : Nat) :
    (Orchestrator.run events).shutdownCalls
      = expectedShutdownCalls (Orchestrator.run events).state
    ∧ Orchestrator.step { state := .Serving, shutdownCalls := n }
        .interrupt = { state := .ShuttingDown, shutdownCalls := n + 1 }
    ∧ Orchestrator.step { state := .ShuttingDown, shutdownCalls := n }
        .interrupt = { state := .ShuttingDown, shutdownCalls := n }
    ∧ Orchestrator.step { state := .Stopped, shutdownCalls := n }
        .interrupt = { state := .Stopped, shutdownCalls := n } := by
  refine ⟨?_, rfl, rfl, rfl⟩
  unfold Orchestrator.run
  exact foldl_step_shutdownCalls events _ rfl

/-- C10: from a freshly wrapped writer, any sequence of `setStatus` calls
forwards exactly its first element (if any) to the underlying sink — at
most one `WriteHeader` reaches the sink — and the captured status is the
first code (or the sentinel 0 when there was none). -/
theorem wrapper_forwards_at_most_one (w : HTTPSink) (codes : List StatusCode) :
    (codes.foldl ResponseWriterW.WriteHeader
        (wrapResponseWriter w)).underlying.writeHeaderCalls
      = w.writeHeaderCalls ++ codes.take 1
    ∧ (codes.foldl ResponseWriterW.WriteHeader (wrapResponseWriter w)).Status
      = codes.headD 0 := by
  cases codes with
  | nil => simp [wrapResponseWriter, ResponseWriterW.Status]
  | cons a rest =>
    have h1 : ((wrapResponseWriter w).WriteHeader a).wroteHeader = true := by
      simp [wrapResponseWriter, ResponseWriterW.WriteHeader]
    rw [List.foldl_cons, foldl_writeHeader_of_wroteHeader rest _ h1]
    refine ⟨?_, ?_⟩ <;>
      simp [wrapResponseWriter, ResponseWriterW.WriteHeader,
        HTTPSink.writeHeader, ResponseWriterW.Status]
